import Mathlib

/-!
# ida_eula: the EULA flag tool

A shallow embedding of `src/tools/ida_eula.c`.  The program parses its command
line with `getopt`, loads a shared library with `dlopen`, resolves the symbol
`reg_int_op` with `dlsym`, calls it to read or write the key `"EULA 90"`, and
releases the library with `dlclose`.

Everything the program does to the outside world is recorded, in program order,
as a list of events (the trace): every `printf`/`fprintf`, every loader call and
every call of the foreign accessor.  The foreign functions themselves (`getopt`,
`dlopen`, `dlsym`/`dlerror` and the function behind the resolved pointer) are not
code of the program; they are parameters of the embedding, collected in `Env`.

Conventions of the embedding:

* a `printf`/`fprintf` is recorded with its format string and its arguments, as
  the source writes them, not as rendered text;
* what the C library itself may write (the messages of `getopt` about a rejected
  option) is not part of the trace;
* the foreign accessor is a function on the state of the library's store that
  returns; a call that aborts the process is outside the embedding;
* `exit(c)` inside `perform_eula_operation` ends the run with exit code `c`;
* `argv[0]` is the head of the argument list (the empty string for an empty list).
-/

namespace IdaEula

/-! ## Data model -/

/-- The two output streams the program writes to. -/
inductive Chan where
  | stdout
  | stderr
  deriving DecidableEq

/-- One observable action of the process.

* `print ch fmt args`: a `printf` (to `stdout`) or `fprintf(stderr, ...)` call with
  format string `fmt` and the string arguments substituted for its `%s`;
* `dlopen path flags result`: a `dlopen` call and the handle it returned
  (`none` for `NULL`);
* `dlerror`: a `dlerror()` call;
* `dlsym handle symbol`: a `dlsym` call;
* `reg_int_op key mode value subkey`: a call through the resolved function
  pointer (`subkey = none` for `NULL`);
* `dlclose handle`: a `dlclose` call. -/
inductive Event where
  | print (ch : Chan) (fmt : String) (args : List String)
  | dlopen (path : String) (flags : Int) (result : Option Nat)
  | dlerror
  | dlsym (handle : Nat) (symbol : String)
  | reg_int_op (key : String) (mode : Int) (value : Int) (subkey : Option String)
  | dlclose (handle : Nat)
  deriving DecidableEq

/-- The C type `reg_int_op_t`:
`uint64_t (*)(const char* key, char mode, int32_t value, const char* subkey)`.
The foreign function may read and change the state `σ` of the library
(its settings store). -/
abbrev reg_int_op_t (σ : Type) : Type :=
  String → Int → Int → Option String → σ → Nat × σ

/-- The C struct `tool_config`. -/
structure tool_config where
  lib_path : String
  query_mode : Int
  set_mode : Int
  deriving DecidableEq

/-- One non-terminating return of `getopt`: the option character it returned
(`'?'` for an unknown option or a missing option argument) and the value it left
in `optarg`.  The program reads `optarg` only after `getopt` returned `'l'`. -/
structure GetoptRet where
  opt : Char
  optarg : String
  deriving DecidableEq

/-- The foreign functions the program calls.

* `getopt argv optstring`: the values returned by the successive `getopt` calls
  of the parsing loop, up to (and not including) the final `-1`;
* `dlopen path flags`: the handle, or the text `dlerror()` reports when the
  library cannot be opened (`dlopen` returned `NULL`);
* `dlsym handle symbol`: the resolved function, or the text the following
  `dlerror()` returns when the lookup failed. -/
structure Env (σ : Type) where
  getopt : List String → String → List GetoptRet
  dlopen : String → Int → Except String Nat
  dlsym : Nat → String → Except String (reg_int_op_t σ)

/-- The state of the run: the trace so far and the state of the foreign
library's settings store. -/
structure World (σ : Type) where
  trace : List Event
  store : σ

variable {σ : Type}

/-- Record one event at the end of the trace. -/
def World.emit (w : World σ) (e : Event) : World σ :=
  { w with trace := w.trace ++ [e] }

/-- The C call `printf(fmt, args...)`. -/
def World.printf (w : World σ) (fmt : String) (args : List String) : World σ :=
  w.emit (Event.print Chan.stdout fmt args)

/-- The C call `fprintf(stderr, fmt, args...)`. -/
def World.eprintf (w : World σ) (fmt : String) (args : List String) : World σ :=
  w.emit (Event.print Chan.stderr fmt args)

/-- The flag `RTLD_LAZY` of `<dlfcn.h>` (its value on Linux). -/
def RTLD_LAZY : Int := 1

/-- The C value `(uint64_t) x`. -/
def UINT64 (x : Nat) : Nat := x % 2 ^ 64

/-! ## The program -/

/-- The function `print_usage` (lines 38-46). -/
def print_usage (prog_name : String) (w : World σ) : World σ :=
  let w := w.eprintf "ida pro eula management tool\n" []
  let w := w.eprintf "usage: %s [-l /path/to/libida.so] [-q | -s]\n" [prog_name]
  let w := w.eprintf "  -l <path>  specify the path to libida.so (default: ./libida.so)\n" []
  let w := w.eprintf "  -q         query the current eula acceptance status.\n" []
  let w := w.eprintf "  -s         set the eula as accepted.\n\n" []
  let w := w.eprintf "note: this tool must be run from a directory where libida.so can find its\n" []
  let w := w.eprintf "dependencies, or with ld_library_path configured for the ida directory.\n" []
  w

/-- The function `perform_eula_operation` (lines 48-121).  The second component
of the result is `some c` when the function ended the process with `exit(c)`,
and `none` when it returned to its caller. -/
def perform_eula_operation (env : Env σ) (config : tool_config) (w : World σ) :
    World σ × Option Int :=
  let eula_key := "EULA 90"
  let w := w.printf "attempting to load library: %s\n" [config.lib_path]
  match env.dlopen config.lib_path RTLD_LAZY with
  | Except.error msg =>
    let w := w.emit (Event.dlopen config.lib_path RTLD_LAZY none)
    let w := w.eprintf "error: failed to load %s\n" [config.lib_path]
    let w := w.emit Event.dlerror
    let w := w.eprintf "dlopen error: %s\n" [msg]
    let w := w.eprintf "ensure the path is correct and all dependencies are available.\n" []
    (w, some 1)
  | Except.ok lib_handle =>
    let w := w.emit (Event.dlopen config.lib_path RTLD_LAZY (some lib_handle))
    let w := w.emit Event.dlerror
    let w := w.emit (Event.dlsym lib_handle "reg_int_op")
    let w := w.emit Event.dlerror
    match env.dlsym lib_handle "reg_int_op" with
    | Except.error dlsym_error =>
      let w := w.eprintf "error: failed to find symbol 'reg_int_op' in %s\n" [config.lib_path]
      let w := w.eprintf "dlsym error: %s\n" [dlsym_error]
      let w := w.eprintf
        "this could mean you are using a different, incompatible version of ida.\n" []
      let w := w.emit (Event.dlclose lib_handle)
      (w, some 1)
    | Except.ok reg_int_op_func =>
      let w :=
        if config.query_mode ≠ 0 then
          let w := w.printf "querying eula status for key: '%s'...\n" [eula_key]
          let w := w.emit (Event.reg_int_op eula_key 0 0 none)
          let r := reg_int_op_func eula_key 0 0 none w.store
          let w := { w with store := r.2 }
          let result := UINT64 r.1
          if result = 1 then
            w.printf "result: 1 (eula is accepted).\n" []
          else
            w.printf "result: 0 (eula is not accepted).\n" []
        else w
      let w :=
        if config.set_mode ≠ 0 then
          let w := w.printf "setting eula status for key: '%s' to accepted...\n" [eula_key]
          let w := w.emit (Event.reg_int_op eula_key 1 1 none)
          let r := reg_int_op_func eula_key 1 1 none w.store
          let w := { w with store := r.2 }
          let w := w.printf "set operation sent. verifying...\n" []
          let w := w.emit (Event.reg_int_op eula_key 0 0 none)
          let r := reg_int_op_func eula_key 0 0 none w.store
          let w := { w with store := r.2 }
          let result := UINT64 r.1
          if result = 1 then
            let w := w.printf "verification successful: eula is now accepted.\n" []
            let w := w.printf "you should now be able to run ida in batch mode.\n" []
            w
          else
            let w := w.eprintf "verification failed! eula status is still not accepted.\n" []
            let w := w.eprintf
              "please check permissions for your user's ida config directory (~/.idapro).\n" []
            w
        else w
      let w := w.emit (Event.dlclose lib_handle)
      let w := w.printf "library closed.\n" []
      (w, none)

/-- The `while ((opt = getopt(...)) != -1) { switch (opt) ... }` loop of `main`
(lines 129-144), run over the values `getopt` returns.  The result is `none`
when the `default:` case was taken (usage printed, `main` returns 1), and the
final configuration when `getopt` returned `-1`. -/
def main_loop (prog_name : String) :
    List GetoptRet → tool_config → World σ → World σ × Option tool_config
  | [], config, w => (w, some config)
  | r :: rest, config, w =>
    if r.opt = 'l' then
      main_loop prog_name rest { config with lib_path := r.optarg } w
    else if r.opt = 'q' then
      main_loop prog_name rest { config with query_mode := 1 } w
    else if r.opt = 's' then
      main_loop prog_name rest { config with set_mode := 1 } w
    else
      (print_usage prog_name w, none)

/-- The function `main` (lines 123-162), started on the argument vector `argv`
with the foreign library's store in state `store`.  The result is the final
state of the run and the exit code of the process. -/
def main (env : Env σ) (argv : List String) (store : σ) : World σ × Int :=
  let prog_name := argv.headD ""
  let config : tool_config := { lib_path := "./libida.so", query_mode := 0, set_mode := 0 }
  let w : World σ := { trace := [], store := store }
  match main_loop prog_name (env.getopt argv "l:qs") config w with
  | (w, none) => (w, 1)
  | (w, some config) =>
    if config.query_mode = 0 ∧ config.set_mode = 0 then
      let w := w.eprintf "error: you must specify an action: -q (query) or -s (set).\n\n" []
      let w := print_usage prog_name w
      (w, 1)
    else if config.query_mode ≠ 0 ∧ config.set_mode ≠ 0 then
      let w := w.eprintf "error: -q and -s are mutually exclusive.\n\n" []
      let w := print_usage prog_name w
      (w, 1)
    else
      match perform_eula_operation env config w with
      | (w, some code) => (w, code)
      | (w, none) => (w, 0)

/-! ## A concrete `getopt`

`getopt` belongs to the C library, not to the program.  The theorems below hold
for every behaviour of `Env.getopt`; the following definition follows the POSIX
description of `getopt` (with the GNU default of skipping over non-option
arguments) and is used to run the program on concrete argument vectors. -/

/-- Whether option character `c` is followed by `':'` in the option string,
that is, whether the option takes an argument. -/
def getopt_takes_arg : List Char → Char → Bool
  | a :: b :: rest, c => (a == c && b == ':') || getopt_takes_arg (b :: rest) c
  | _, _ => false

/-- Scan of the option characters of one argument (the characters after the
leading `'-'`); `next` is the following element of `argv`, if any.  The result
holds the values returned for this argument and whether `next` was used up as
an option argument. -/
def getopt_cluster (optstring : List Char) (next : Option String) :
    List Char → List GetoptRet × Bool
  | [] => ([], false)
  | c :: cs =>
    if c ≠ ':' ∧ c ∈ optstring then
      if getopt_takes_arg optstring c then
        match cs, next with
        | _ :: _, _ => ([⟨c, String.mk cs⟩], false)
        | [], some a => ([⟨c, a⟩], true)
        | [], none => ([⟨'?', ""⟩], false)
      else
        ((⟨c, ""⟩ : GetoptRet) :: (getopt_cluster optstring next cs).1,
          (getopt_cluster optstring next cs).2)
    else
      ((⟨'?', ""⟩ : GetoptRet) :: (getopt_cluster optstring next cs).1,
        (getopt_cluster optstring next cs).2)

/-- Scan of the arguments after `argv[0]`; the flag says that the head of the
list was already used up as an option argument.  The scan ends at `"--"` or at
the end of the list. -/
def getopt_scan (optstring : List Char) : Bool → List String → List GetoptRet
  | _, [] => []
  | true, _ :: rest => getopt_scan optstring false rest
  | false, a :: rest =>
    match a.data with
    | ['-', '-'] => []
    | '-' :: c :: cs =>
      (getopt_cluster optstring rest.head? (c :: cs)).1 ++
        getopt_scan optstring (getopt_cluster optstring rest.head? (c :: cs)).2 rest
    | _ => getopt_scan optstring false rest

/-- The values returned by successive `getopt(argc, argv, optstring)` calls. -/
def getopt_model (argv : List String) (optstring : String) : List GetoptRet :=
  getopt_scan optstring.data false argv.tail

/-! ## The accessor as a key-value store -/

/-- A settings store: the 32-bit value kept under each key, if any. -/
abbrev Store : Type := String → Option Int

/-- Modelled from the spec: the foreign accessor `reg_int_op` of the loaded
library, which is not part of the repository, as a key-value store: a
write-mode call (bit 0 of `mode` set) stores the value under the key, a
read-mode call returns the stored value, or the supplied default when the key
is absent, converted to `uint64_t`.  The value `wret` returned by a write-mode
call is left open. -/
def kv_reg_int_op (wret : Nat) : reg_int_op_t Store :=
  fun key mode value _subkey st =>
    if mode % 2 = 1 then
      (wret, fun k => if k = key then some value else st k)
    else
      (((st key).getD value % 2 ^ 64).toNat, st)

/-! ## The options `getopt` returned -/

/-- The option `c` occurs among the values `getopt` returned. -/
def option_given (c : Char) (opts : List GetoptRet) : Prop :=
  ∃ r ∈ opts, r.opt = c

instance (c : Char) (opts : List GetoptRet) : Decidable (option_given c opts) := by
  unfold option_given; infer_instance

/-- Some value `getopt` returned is none of `'l'`, `'q'`, `'s'`: an unknown
option, or an option whose argument is missing (both reported as `'?'`). -/
def option_rejected (opts : List GetoptRet) : Prop :=
  ∃ r ∈ opts, r.opt ≠ 'l' ∧ r.opt ≠ 'q' ∧ r.opt ≠ 's'

instance (opts : List GetoptRet) : Decidable (option_rejected opts) := by
  unfold option_rejected; infer_instance

/-- The argument vector is invalid: an option was rejected, or neither `-q` nor
`-s` was given, or both were. -/
def invalid_args (opts : List GetoptRet) : Prop :=
  option_rejected opts ∨
    (¬ option_given 'q' opts ∧ ¬ option_given 's' opts) ∨
    (option_given 'q' opts ∧ option_given 's' opts)

instance (opts : List GetoptRet) : Decidable (invalid_args opts) := by
  unfold invalid_args; infer_instance

/-- The options ask for a query: none rejected, `-q` given, `-s` not given. -/
def query_args (opts : List GetoptRet) : Prop :=
  ¬ option_rejected opts ∧ option_given 'q' opts ∧ ¬ option_given 's' opts

instance (opts : List GetoptRet) : Decidable (query_args opts) := by
  unfold query_args; infer_instance

/-- The options ask for a set: none rejected, `-s` given, `-q` not given. -/
def set_args (opts : List GetoptRet) : Prop :=
  ¬ option_rejected opts ∧ option_given 's' opts ∧ ¬ option_given 'q' opts

instance (opts : List GetoptRet) : Decidable (set_args opts) := by
  unfold set_args; infer_instance

/-- The argument of the last `-l` option, if there is one. -/
def last_l_argument (opts : List GetoptRet) : Option String :=
  ((opts.filter fun r => r.opt = 'l').getLast?).map GetoptRet.optarg

/-- The path a valid argument vector selects. -/
def library_path (opts : List GetoptRet) : String :=
  (last_l_argument opts).getD "./libida.so"

/-- The configuration the parsing loop of `main` builds from accepted options. -/
def parsed_config (opts : List GetoptRet) : tool_config :=
  { lib_path := library_path opts
    query_mode := if option_given 'q' opts then 1 else 0
    set_mode := if option_given 's' opts then 1 else 0 }

/-! ## Observations on a run -/

/-- The trace of the run of `main`. -/
def run_trace (env : Env σ) (argv : List String) (store : σ) : List Event :=
  (main env argv store).1.trace

/-- The exit code of the run of `main`. -/
def run_exit (env : Env σ) (argv : List String) (store : σ) : Int :=
  (main env argv store).2

/-- The state of the library's store after the run of `main`. -/
def run_store (env : Env σ) (argv : List String) (store : σ) : σ :=
  (main env argv store).1.store

/-- The exit code of the process once `perform_eula_operation` is over:
the argument of `exit`, or the 0 that `main` returns. -/
def exit_status (r : World σ × Option Int) : World σ × Int :=
  (r.1, r.2.getD 0)

/-- The calls of the foreign accessor in a trace, in order. -/
def accessor_calls (t : List Event) : List Event :=
  t.filter fun e =>
    match e with
    | Event.reg_int_op _ _ _ _ => true
    | _ => false

/-- The symbol lookups in a trace, in order. -/
def symbol_lookups (t : List Event) : List Event :=
  t.filter fun e =>
    match e with
    | Event.dlsym _ _ => true
    | _ => false

/-- The `dlopen` calls in a trace, in order. -/
def loader_calls (t : List Event) : List Event :=
  t.filter fun e =>
    match e with
    | Event.dlopen _ _ _ => true
    | _ => false

/-- The events of a trace that touch the library: opening it, calling the
accessor, releasing it. -/
def library_events (t : List Event) : List Event :=
  t.filter fun e =>
    match e with
    | Event.dlopen _ _ _ => true
    | Event.reg_int_op _ _ _ _ => true
    | Event.dlclose _ => true
    | _ => false

/-- The text `print_usage` writes, as events. -/
def usage_text (prog_name : String) : List Event :=
  [ Event.print Chan.stderr "ida pro eula management tool\n" [],
    Event.print Chan.stderr "usage: %s [-l /path/to/libida.so] [-q | -s]\n" [prog_name],
    Event.print Chan.stderr
      "  -l <path>  specify the path to libida.so (default: ./libida.so)\n" [],
    Event.print Chan.stderr "  -q         query the current eula acceptance status.\n" [],
    Event.print Chan.stderr "  -s         set the eula as accepted.\n\n" [],
    Event.print Chan.stderr
      "note: this tool must be run from a directory where libida.so can find its\n" [],
    Event.print Chan.stderr
      "dependencies, or with ld_library_path configured for the ida directory.\n" [] ]

/-- The events up to and including the symbol lookup, when the library loads. -/
def load_events (path : String) (handle : Nat) : List Event :=
  [ Event.print Chan.stdout "attempting to load library: %s\n" [path],
    Event.dlopen path RTLD_LAZY (some handle),
    Event.dlerror,
    Event.dlsym handle "reg_int_op",
    Event.dlerror ]

/-! ## Environments for concrete runs -/

/-- An environment for concrete runs: the concrete `getopt`, a loader that
opens every path (handle 1) and resolves every symbol to `f`. -/
def stub_env (f : reg_int_op_t σ) : Env σ :=
  { getopt := getopt_model
    dlopen := fun _ _ => Except.ok 1
    dlsym := fun _ _ => Except.ok f }

/-- An accessor that ignores its arguments, returns `ret` and leaves the store
alone. -/
def const_reg_int_op (ret : Nat) : reg_int_op_t σ :=
  fun _ _ _ _ st => (ret, st)

/-- An environment for concrete runs in which no library can be opened. -/
def no_library_env : Env Unit :=
  { getopt := getopt_model
    dlopen := fun _ _ => Except.error "cannot open shared object file"
    dlsym := fun _ _ => Except.error "undefined symbol" }

/-- An environment for concrete runs in which the library opens (handle 1) and
lacks every symbol. -/
def no_symbol_env : Env Unit :=
  { getopt := getopt_model
    dlopen := fun _ _ => Except.ok 1
    dlsym := fun _ _ => Except.error "undefined symbol: reg_int_op" }

/-! ## Lemmas on the parsing loop and on the paths of a run -/

theorem last_l_argument_cons (r : GetoptRet) (rest : List GetoptRet) :
    last_l_argument (r :: rest) =
      if r.opt = 'l' then some ((last_l_argument rest).getD r.optarg)
      else last_l_argument rest := by
  unfold last_l_argument
  by_cases h : r.opt = 'l'
  · simp only [h, decide_True, List.filter_cons_of_pos, if_true, List.getLast?_cons]
    cases (List.filter (fun r => decide (r.opt = 'l')) rest).getLast? <;> simp
  · simp [h, List.filter_cons]

theorem main_loop_rejected (prog_name : String) (opts : List GetoptRet) :
    ∀ (config : tool_config) (w : World σ), option_rejected opts →
      main_loop prog_name opts config w = (print_usage prog_name w, none) := by
  induction opts with
  | nil => intro _ _ h; simp [option_rejected] at h
  | cons r rest ih =>
    intro config w h
    have hrest : (r.opt = 'l' ∨ r.opt = 'q' ∨ r.opt = 's') → option_rejected rest := by
      intro hr
      obtain ⟨x, hx, h1, h2, h3⟩ := h
      rcases List.mem_cons.mp hx with rfl | hx
      · rcases hr with hr | hr | hr <;> contradiction
      · exact ⟨x, hx, h1, h2, h3⟩
    unfold main_loop
    split_ifs with h1 h2 h3
    · exact ih _ _ (hrest (Or.inl h1))
    · exact ih _ _ (hrest (Or.inr (Or.inl h2)))
    · exact ih _ _ (hrest (Or.inr (Or.inr h3)))
    · rfl

theorem main_loop_accepted (prog_name : String) (opts : List GetoptRet) :
    ∀ (config : tool_config) (w : World σ), ¬ option_rejected opts →
      main_loop prog_name opts config w =
        (w, some
          { lib_path := (last_l_argument opts).getD config.lib_path
            query_mode := if option_given 'q' opts then 1 else config.query_mode
            set_mode := if option_given 's' opts then 1 else config.set_mode }) := by
  induction opts with
  | nil => intro config w _; simp [main_loop, last_l_argument, option_given]
  | cons r rest ih =>
    intro config w h
    have hrest : ¬ option_rejected rest := by
      rintro ⟨x, hx, hx'⟩
      exact h ⟨x, List.mem_cons_of_mem _ hx, hx'⟩
    have hr : r.opt = 'l' ∨ r.opt = 'q' ∨ r.opt = 's' := by
      by_contra hc
      push_neg at hc
      exact h ⟨r, List.mem_cons_self _ _, hc⟩
    have hg : ∀ c, option_given c (r :: rest) ↔ (r.opt = c ∨ option_given c rest) := by
      intro c; simp [option_given]
    have hne : ('l' : Char) ≠ 'q' ∧ ('l' : Char) ≠ 's' ∧ ('q' : Char) ≠ 's' ∧
        ('q' : Char) ≠ 'l' := by decide
    by_cases h1 : r.opt = 'l'
    · rw [main_loop, if_pos h1, ih _ _ hrest, last_l_argument_cons, if_pos h1]
      simp only [hg, h1, hne.1, hne.2.1, false_or]
      cases last_l_argument rest <;> simp
    · by_cases h2 : r.opt = 'q'
      · rw [main_loop, if_neg h1, if_pos h2, ih _ _ hrest, last_l_argument_cons, if_neg h1]
        simp only [hg, h2, hne.2.2.1, true_or, false_or, if_true]
        by_cases hq : option_given 'q' rest <;> simp [hq]
      · have h3 : r.opt = 's' := by
          rcases hr with hr | hr | hr
          · exact absurd hr h1
          · exact absurd hr h2
          · exact hr
        rw [main_loop, if_neg h1, if_neg h2, if_pos h3, ih _ _ hrest, last_l_argument_cons,
          if_neg h1]
        simp only [hg, h3, Ne.symm hne.2.2.1, true_or, false_or, if_true]
        by_cases hs : option_given 's' rest <;> simp [hs]

theorem main_of_valid (env : Env σ) (argv : List String) (store : σ)
    (h : ¬ invalid_args (env.getopt argv "l:qs")) :
    main env argv store =
      exit_status (perform_eula_operation env (parsed_config (env.getopt argv "l:qs"))
        { trace := [], store := store }) := by
  simp only [invalid_args, not_or, not_and, not_not] at h
  obtain ⟨hrej, h0, h2⟩ := h
  unfold main
  simp only [main_loop_accepted _ _ _ _ hrej, parsed_config, library_path, exit_status]
  by_cases hq : option_given 'q' (env.getopt argv "l:qs")
  · have hs := h2 hq
    simp only [hq, hs, if_true, if_false]
    simp
    cases hp : perform_eula_operation env _ _ with
    | mk w c => cases c <;> simp
  · have hs : option_given 's' (env.getopt argv "l:qs") := by
      by_contra hc
      exact hc (h0 hq)
    simp only [hq, hs, if_true, if_false]
    simp
    cases hp : perform_eula_operation env _ _ with
    | mk w c => cases c <;> simp

theorem perform_load_failure (env : Env σ) (config : tool_config) (w : World σ) (msg : String)
    (hload : env.dlopen config.lib_path RTLD_LAZY = Except.error msg) :
    perform_eula_operation env config w =
      ({ trace := w.trace ++
          [ Event.print Chan.stdout "attempting to load library: %s\n" [config.lib_path],
            Event.dlopen config.lib_path RTLD_LAZY none,
            Event.print Chan.stderr "error: failed to load %s\n" [config.lib_path],
            Event.dlerror,
            Event.print Chan.stderr "dlopen error: %s\n" [msg],
            Event.print Chan.stderr
              "ensure the path is correct and all dependencies are available.\n" [] ]
         store := w.store }, some 1) := by
  simp [perform_eula_operation, hload, World.emit, World.printf, World.eprintf]

theorem perform_resolve_failure (env : Env σ) (config : tool_config) (w : World σ)
    (handle : Nat) (msg : String)
    (hload : env.dlopen config.lib_path RTLD_LAZY = Except.ok handle)
    (hres : env.dlsym handle "reg_int_op" = Except.error msg) :
    perform_eula_operation env config w =
      ({ trace := w.trace ++ load_events config.lib_path handle ++
          [ Event.print Chan.stderr "error: failed to find symbol 'reg_int_op' in %s\n"
              [config.lib_path],
            Event.print Chan.stderr "dlsym error: %s\n" [msg],
            Event.print Chan.stderr
              "this could mean you are using a different, incompatible version of ida.\n" [],
            Event.dlclose handle ]
         store := w.store }, some 1) := by
  simp [perform_eula_operation, hload, hres, World.emit, World.printf, World.eprintf,
    load_events]

theorem perform_query (env : Env σ) (config : tool_config) (w : World σ)
    (handle : Nat) (f : reg_int_op_t σ)
    (hload : env.dlopen config.lib_path RTLD_LAZY = Except.ok handle)
    (hres : env.dlsym handle "reg_int_op" = Except.ok f)
    (hq : config.query_mode ≠ 0) (hs : config.set_mode = 0) :
    perform_eula_operation env config w =
      ({ trace := w.trace ++ load_events config.lib_path handle ++
          [ Event.print Chan.stdout "querying eula status for key: '%s'...\n" ["EULA 90"],
            Event.reg_int_op "EULA 90" 0 0 none,
            Event.print Chan.stdout
              (if UINT64 (f "EULA 90" 0 0 none w.store).1 = 1
                then "result: 1 (eula is accepted).\n"
                else "result: 0 (eula is not accepted).\n") [],
            Event.dlclose handle,
            Event.print Chan.stdout "library closed.\n" [] ]
         store := (f "EULA 90" 0 0 none w.store).2 }, none) := by
  simp only [perform_eula_operation, hload, hres, World.emit, World.printf, World.eprintf,
    load_events, hs, ne_eq, not_true_eq_false, if_false, hq, not_false_eq_true, if_true]
  split_ifs <;> simp

theorem perform_set (env : Env σ) (config : tool_config) (w : World σ)
    (handle : Nat) (f : reg_int_op_t σ)
    (hload : env.dlopen config.lib_path RTLD_LAZY = Except.ok handle)
    (hres : env.dlsym handle "reg_int_op" = Except.ok f)
    (hq : config.query_mode = 0) (hs : config.set_mode ≠ 0) :
    perform_eula_operation env config w =
      ({ trace := w.trace ++ load_events config.lib_path handle ++
          [ Event.print Chan.stdout "setting eula status for key: '%s' to accepted...\n"
              ["EULA 90"],
            Event.reg_int_op "EULA 90" 1 1 none,
            Event.print Chan.stdout "set operation sent. verifying...\n" [],
            Event.reg_int_op "EULA 90" 0 0 none ] ++
          (if UINT64 (f "EULA 90" 0 0 none (f "EULA 90" 1 1 none w.store).2).1 = 1 then
            [ Event.print Chan.stdout "verification successful: eula is now accepted.\n" [],
              Event.print Chan.stdout "you should now be able to run ida in batch mode.\n" [] ]
          else
            [ Event.print Chan.stderr
                "verification failed! eula status is still not accepted.\n" [],
              Event.print Chan.stderr
                "please check permissions for your user's ida config directory (~/.idapro).\n"
                [] ]) ++
          [ Event.dlclose handle,
            Event.print Chan.stdout "library closed.\n" [] ]
         store := (f "EULA 90" 0 0 none (f "EULA 90" 1 1 none w.store).2).2 }, none) := by
  simp only [perform_eula_operation, hload, hres, World.emit, World.printf, World.eprintf,
    load_events, hq, ne_eq, not_true_eq_false, if_false, hs, not_false_eq_true, if_true]
  split_ifs <;> simp

theorem print_usage_trace (prog_name : String) (w : World σ) :
    print_usage prog_name w = { trace := w.trace ++ usage_text prog_name, store := w.store } := by
  simp [print_usage, World.eprintf, World.emit, usage_text]

theorem main_of_invalid (env : Env σ) (argv : List String) (store : σ)
    (h : invalid_args (env.getopt argv "l:qs")) :
    ∃ pre : List Event,
      (pre = [] ∨
        pre = [Event.print Chan.stderr
          "error: you must specify an action: -q (query) or -s (set).\n\n" []] ∨
        pre = [Event.print Chan.stderr "error: -q and -s are mutually exclusive.\n\n" []]) ∧
      main env argv store =
        ({ trace := pre ++ usage_text (argv.headD ""), store := store }, 1) := by
  by_cases hrej : option_rejected (env.getopt argv "l:qs")
  · refine ⟨[], Or.inl rfl, ?_⟩
    unfold main
    simp only [main_loop_rejected _ _ _ _ hrej, print_usage_trace]
  · rcases h with h | ⟨hq, hs⟩ | ⟨hq, hs⟩
    · exact absurd h hrej
    · refine ⟨_, Or.inr (Or.inl rfl), ?_⟩
      unfold main
      simp [main_loop_accepted _ _ _ _ hrej, print_usage_trace, hq, hs, World.eprintf,
        World.emit]
    · refine ⟨_, Or.inr (Or.inr rfl), ?_⟩
      unfold main
      simp [main_loop_accepted _ _ _ _ hrej, print_usage_trace, hq, hs, World.eprintf,
        World.emit]

theorem valid_iff_query_or_set (opts : List GetoptRet) :
    ¬ invalid_args opts ↔ query_args opts ∨ set_args opts := by
  unfold invalid_args query_args set_args
  tauto

theorem main_query (env : Env σ) (argv : List String) (store : σ)
    (handle : Nat) (f : reg_int_op_t σ)
    (hargs : query_args (env.getopt argv "l:qs"))
    (hload : env.dlopen (library_path (env.getopt argv "l:qs")) RTLD_LAZY = Except.ok handle)
    (hres : env.dlsym handle "reg_int_op" = Except.ok f) :
    main env argv store =
      ({ trace := load_events (library_path (env.getopt argv "l:qs")) handle ++
          [ Event.print Chan.stdout "querying eula status for key: '%s'...\n" ["EULA 90"],
            Event.reg_int_op "EULA 90" 0 0 none,
            Event.print Chan.stdout
              (if UINT64 (f "EULA 90" 0 0 none store).1 = 1
                then "result: 1 (eula is accepted).\n"
                else "result: 0 (eula is not accepted).\n") [],
            Event.dlclose handle,
            Event.print Chan.stdout "library closed.\n" [] ]
         store := (f "EULA 90" 0 0 none store).2 }, 0) := by
  rw [main_of_valid env argv store ((valid_iff_query_or_set _).mpr (Or.inl hargs)),
    perform_query env _ _ handle f hload hres
      (by simp [parsed_config, hargs.2.1]) (by simp [parsed_config, hargs.2.2])]
  simp [exit_status, parsed_config]

theorem main_set (env : Env σ) (argv : List String) (store : σ)
    (handle : Nat) (f : reg_int_op_t σ)
    (hargs : set_args (env.getopt argv "l:qs"))
    (hload : env.dlopen (library_path (env.getopt argv "l:qs")) RTLD_LAZY = Except.ok handle)
    (hres : env.dlsym handle "reg_int_op" = Except.ok f) :
    main env argv store =
      ({ trace := load_events (library_path (env.getopt argv "l:qs")) handle ++
          [ Event.print Chan.stdout "setting eula status for key: '%s' to accepted...\n"
              ["EULA 90"],
            Event.reg_int_op "EULA 90" 1 1 none,
            Event.print Chan.stdout "set operation sent. verifying...\n" [],
            Event.reg_int_op "EULA 90" 0 0 none ] ++
          (if UINT64 (f "EULA 90" 0 0 none (f "EULA 90" 1 1 none store).2).1 = 1 then
            [ Event.print Chan.stdout "verification successful: eula is now accepted.\n" [],
              Event.print Chan.stdout "you should now be able to run ida in batch mode.\n" [] ]
          else
            [ Event.print Chan.stderr
                "verification failed! eula status is still not accepted.\n" [],
              Event.print Chan.stderr
                "please check permissions for your user's ida config directory (~/.idapro).\n"
                [] ]) ++
          [ Event.dlclose handle,
            Event.print Chan.stdout "library closed.\n" [] ]
         store := (f "EULA 90" 0 0 none (f "EULA 90" 1 1 none store).2).2 }, 0) := by
  rw [main_of_valid env argv store ((valid_iff_query_or_set _).mpr (Or.inr hargs)),
    perform_set env _ _ handle f hload hres
      (by simp [parsed_config, hargs.2.2]) (by simp [parsed_config, hargs.2.1])]
  simp [exit_status, parsed_config]

theorem main_load_failure (env : Env σ) (argv : List String) (store : σ) (msg : String)
    (hvalid : ¬ invalid_args (env.getopt argv "l:qs"))
    (hload : env.dlopen (library_path (env.getopt argv "l:qs")) RTLD_LAZY = Except.error msg) :
    main env argv store =
      ({ trace :=
          [ Event.print Chan.stdout "attempting to load library: %s\n"
              [library_path (env.getopt argv "l:qs")],
            Event.dlopen (library_path (env.getopt argv "l:qs")) RTLD_LAZY none,
            Event.print Chan.stderr "error: failed to load %s\n"
              [library_path (env.getopt argv "l:qs")],
            Event.dlerror,
            Event.print Chan.stderr "dlopen error: %s\n" [msg],
            Event.print Chan.stderr
              "ensure the path is correct and all dependencies are available.\n" [] ]
         store := store }, 1) := by
  rw [main_of_valid env argv store hvalid, perform_load_failure env _ _ msg hload]
  simp [exit_status, parsed_config]

theorem main_resolve_failure (env : Env σ) (argv : List String) (store : σ)
    (handle : Nat) (msg : String)
    (hvalid : ¬ invalid_args (env.getopt argv "l:qs"))
    (hload : env.dlopen (library_path (env.getopt argv "l:qs")) RTLD_LAZY = Except.ok handle)
    (hres : env.dlsym handle "reg_int_op" = Except.error msg) :
    main env argv store =
      ({ trace := load_events (library_path (env.getopt argv "l:qs")) handle ++
          [ Event.print Chan.stderr "error: failed to find symbol 'reg_int_op' in %s\n"
              [library_path (env.getopt argv "l:qs")],
            Event.print Chan.stderr "dlsym error: %s\n" [msg],
            Event.print Chan.stderr
              "this could mean you are using a different, incompatible version of ida.\n" [],
            Event.dlclose handle ]
         store := store }, 1) := by
  rw [main_of_valid env argv store hvalid, perform_resolve_failure env _ _ handle msg hload hres]
  simp [exit_status, parsed_config]

theorem kv_read_unset (wret : Nat) (st : Store) (h : st "EULA 90" = none) :
    UINT64 (kv_reg_int_op wret "EULA 90" 0 0 none st).1 = 0 := by
  simp [kv_reg_int_op, h, UINT64]

theorem kv_read_after_write (wret : Nat) (st : Store) :
    UINT64 (kv_reg_int_op wret "EULA 90" 0 0 none
      (kv_reg_int_op wret "EULA 90" 1 1 none st).2).1 = 1 := by
  simp [kv_reg_int_op, UINT64]

theorem kv_read_keeps_store (wret : Nat) (st : Store) :
    (kv_reg_int_op wret "EULA 90" 0 0 none st).2 = st := by
  simp [kv_reg_int_op]

theorem main_loop_of_valid (env : Env σ) (argv : List String) (store : σ)
    (hvalid : ¬ invalid_args (env.getopt argv "l:qs")) :
    main_loop (argv.headD "") (env.getopt argv "l:qs")
        { lib_path := "./libida.so", query_mode := 0, set_mode := 0 }
        { trace := [], store := store } =
      (({ trace := [], store := store } : World σ),
        some (parsed_config (env.getopt argv "l:qs"))) := by
  have hrej : ¬ option_rejected (env.getopt argv "l:qs") := fun h => hvalid (Or.inl h)
  rw [main_loop_accepted _ _ _ _ hrej]
  rfl

theorem parsed_config_one_action (opts : List GetoptRet) (hvalid : ¬ invalid_args opts) :
    ((parsed_config opts).query_mode ≠ 0 ∧ (parsed_config opts).set_mode = 0) ∨
      ((parsed_config opts).query_mode = 0 ∧ (parsed_config opts).set_mode ≠ 0) := by
  rcases (valid_iff_query_or_set _).mp hvalid with h | h
  · left; simp [parsed_config, h.2.1, h.2.2]
  · right; simp [parsed_config, h.2.1, h.2.2]

/-! ## The claims -/

/-- C1: when the options are invalid (an option rejected by `getopt`, which covers an
unknown option and `-l` without its argument, or neither `-q` nor `-s` given, or both
given), `main` returns 1 and the trace ends with the usage text, written to `stderr`. -/
theorem invalid_args_exit_usage (env : Env σ) (argv : List String) (store : σ)
    (h : invalid_args (env.getopt argv "l:qs")) :
    run_exit env argv store = 1 ∧
      usage_text (argv.headD "") <:+ run_trace env argv store := by
  obtain ⟨pre, -, hmain⟩ := main_of_invalid env argv store h
  simp only [run_exit, run_trace, hmain]
  exact ⟨trivial, List.suffix_append _ _⟩

/-- Witness of C1: `ida_eula -l` (the argument of `-l` is missing). -/
theorem invalid_args_exit_usage_witness :
    invalid_args (getopt_model ["ida_eula", "-l"] "l:qs") ∧
      run_exit (stub_env (kv_reg_int_op 1)) ["ida_eula", "-l"] (fun _ => none) = 1 ∧
      usage_text "ida_eula" <:+
        run_trace (stub_env (kv_reg_int_op 1)) ["ida_eula", "-l"] (fun _ => none) :=
  ⟨by decide,
    invalid_args_exit_usage (stub_env (kv_reg_int_op 1)) ["ida_eula", "-l"] (fun _ => none)
      (by decide)⟩

/-- C2: in a run with `-s` and without `-q` in which the library loads and the symbol
resolves, the accessor is called exactly twice, first with `("EULA 90", 1, 1, NULL)` and
then with `("EULA 90", 0, 0, NULL)`; the success message is printed to `stdout` exactly
when the second call returns 1, and the verification-failure message is written to
`stderr` exactly when it returns anything else. -/
theorem set_run_writes_then_verifies (env : Env σ) (argv : List String) (store : σ)
    (handle : Nat) (f : reg_int_op_t σ)
    (hargs : set_args (env.getopt argv "l:qs"))
    (hload : env.dlopen (library_path (env.getopt argv "l:qs")) RTLD_LAZY = Except.ok handle)
    (hres : env.dlsym handle "reg_int_op" = Except.ok f) :
    accessor_calls (run_trace env argv store) =
        [Event.reg_int_op "EULA 90" 1 1 none, Event.reg_int_op "EULA 90" 0 0 none] ∧
      (Event.print Chan.stdout "verification successful: eula is now accepted.\n" [] ∈
          run_trace env argv store ↔
        UINT64 (f "EULA 90" 0 0 none (f "EULA 90" 1 1 none store).2).1 = 1) ∧
      (Event.print Chan.stderr "verification failed! eula status is still not accepted.\n" [] ∈
          run_trace env argv store ↔
        UINT64 (f "EULA 90" 0 0 none (f "EULA 90" 1 1 none store).2).1 ≠ 1) := by
  simp only [run_trace, main_set env argv store handle f hargs hload hres]
  by_cases hv : UINT64 (f "EULA 90" 0 0 none (f "EULA 90" 1 1 none store).2).1 = 1
  · simp only [hv, if_true, load_events, accessor_calls]
    refine ⟨by simp [List.filter], by simp, by simp⟩
  · simp only [hv, if_false, load_events, accessor_calls]
    refine ⟨by simp [List.filter], by simp, by simp [hv]⟩

/-- Witness of C2: `ida_eula -l ./stub.so -s` against the key-value store. -/
theorem set_run_writes_then_verifies_witness :
    set_args (getopt_model ["ida_eula", "-l", "./stub.so", "-s"] "l:qs") ∧
      accessor_calls
          (run_trace (stub_env (kv_reg_int_op 1)) ["ida_eula", "-l", "./stub.so", "-s"]
            (fun _ => none)) =
        [Event.reg_int_op "EULA 90" 1 1 none, Event.reg_int_op "EULA 90" 0 0 none] :=
  ⟨by decide,
    (set_run_writes_then_verifies (stub_env (kv_reg_int_op 1))
      ["ida_eula", "-l", "./stub.so", "-s"] (fun _ => none) 1 (kv_reg_int_op 1)
      (by decide) rfl rfl).1⟩

/-- C3: in a run with `-q` and without `-s` in which the library loads and the symbol
resolves, the accessor is called exactly once, with `("EULA 90", 0, 0, NULL)`, and never
in write mode; the "accepted" line is printed exactly when the returned 64-bit value
is 1, the "0 (eula is not accepted)" line exactly when it is anything else, and the
exit code is 0. -/
theorem query_run_reads_once (env : Env σ) (argv : List String) (store : σ)
    (handle : Nat) (f : reg_int_op_t σ)
    (hargs : query_args (env.getopt argv "l:qs"))
    (hload : env.dlopen (library_path (env.getopt argv "l:qs")) RTLD_LAZY = Except.ok handle)
    (hres : env.dlsym handle "reg_int_op" = Except.ok f) :
    accessor_calls (run_trace env argv store) = [Event.reg_int_op "EULA 90" 0 0 none] ∧
      (∀ key mode value subkey,
        Event.reg_int_op key mode value subkey ∈ run_trace env argv store → mode = 0) ∧
      (Event.print Chan.stdout "result: 1 (eula is accepted).\n" [] ∈
          run_trace env argv store ↔
        UINT64 (f "EULA 90" 0 0 none store).1 = 1) ∧
      (Event.print Chan.stdout "result: 0 (eula is not accepted).\n" [] ∈
          run_trace env argv store ↔
        UINT64 (f "EULA 90" 0 0 none store).1 ≠ 1) ∧
      run_exit env argv store = 0 := by
  simp only [run_trace, run_exit, main_query env argv store handle f hargs hload hres]
  by_cases hv : UINT64 (f "EULA 90" 0 0 none store).1 = 1
  · simp only [hv, if_true, load_events, accessor_calls]
    refine ⟨by simp [List.filter], ?_, by simp, by simp, trivial⟩
    intro key mode value subkey hmem
    simp at hmem
    exact hmem.2.1
  · simp only [hv, if_false, load_events, accessor_calls]
    refine ⟨by simp [List.filter], ?_, by simp, by simp [hv], trivial⟩
    intro key mode value subkey hmem
    simp at hmem
    exact hmem.2.1

/-- Witness of C3: `ida_eula -l ./stub.so -q` against the empty key-value store. -/
theorem query_run_reads_once_witness :
    query_args (getopt_model ["ida_eula", "-l", "./stub.so", "-q"] "l:qs") ∧
      accessor_calls
          (run_trace (stub_env (kv_reg_int_op 1)) ["ida_eula", "-l", "./stub.so", "-q"]
            (fun _ => none)) =
        [Event.reg_int_op "EULA 90" 0 0 none] ∧
      run_exit (stub_env (kv_reg_int_op 1)) ["ida_eula", "-l", "./stub.so", "-q"]
        (fun _ => none) = 0 :=
  have h := query_run_reads_once (stub_env (kv_reg_int_op 1))
    ["ida_eula", "-l", "./stub.so", "-q"] (fun _ => none) 1 (kv_reg_int_op 1)
    (by decide) rfl rfl
  ⟨by decide, h.1, h.2.2.2.2⟩

/-- C4: in a valid run in which `dlopen` fails, the exit code is 1, the load-failure
diagnostic naming the configured library path is written to `stderr`, and the run
makes no symbol lookup and no accessor call. -/
theorem load_failure_exits_one (env : Env σ) (argv : List String) (store : σ) (msg : String)
    (hvalid : ¬ invalid_args (env.getopt argv "l:qs"))
    (hload : env.dlopen (library_path (env.getopt argv "l:qs")) RTLD_LAZY = Except.error msg) :
    run_exit env argv store = 1 ∧
      Event.print Chan.stderr "error: failed to load %s\n"
          [library_path (env.getopt argv "l:qs")] ∈ run_trace env argv store ∧
      symbol_lookups (run_trace env argv store) = [] ∧
      accessor_calls (run_trace env argv store) = [] := by
  simp only [run_trace, run_exit, main_load_failure env argv store msg hvalid hload]
  refine ⟨trivial, by simp, by simp [symbol_lookups, List.filter],
    by simp [accessor_calls, List.filter]⟩

/-- Witness of C4: `ida_eula -l ./missing.so -q` when no library can be opened. -/
theorem load_failure_exits_one_witness :
    ¬ invalid_args (getopt_model ["ida_eula", "-l", "./missing.so", "-q"] "l:qs") ∧
      run_exit no_library_env ["ida_eula", "-l", "./missing.so", "-q"] () = 1 ∧
      Event.print Chan.stderr "error: failed to load %s\n" ["./missing.so"] ∈
        run_trace no_library_env ["ida_eula", "-l", "./missing.so", "-q"] () :=
  have h := load_failure_exits_one no_library_env ["ida_eula", "-l", "./missing.so", "-q"] ()
    "cannot open shared object file" (by decide) rfl
  ⟨by decide, h.1, h.2.1⟩

/-- C5: in a valid run in which the library loads and the symbol lookup fails, the
library events are the open and one release of the handle (no accessor call), the
diagnostic naming the symbol `reg_int_op` is written to `stderr`, and the exit code
is 1. -/
theorem resolve_failure_releases_and_exits_one (env : Env σ) (argv : List String) (store : σ)
    (handle : Nat) (msg : String)
    (hvalid : ¬ invalid_args (env.getopt argv "l:qs"))
    (hload : env.dlopen (library_path (env.getopt argv "l:qs")) RTLD_LAZY = Except.ok handle)
    (hres : env.dlsym handle "reg_int_op" = Except.error msg) :
    library_events (run_trace env argv store) =
        [ Event.dlopen (library_path (env.getopt argv "l:qs")) RTLD_LAZY (some handle),
          Event.dlclose handle ] ∧
      Event.print Chan.stderr "error: failed to find symbol 'reg_int_op' in %s\n"
          [library_path (env.getopt argv "l:qs")] ∈ run_trace env argv store ∧
      run_exit env argv store = 1 ∧
      accessor_calls (run_trace env argv store) = [] := by
  simp only [run_trace, run_exit,
    main_resolve_failure env argv store handle msg hvalid hload hres, load_events]
  refine ⟨by simp [library_events, List.filter], by simp, trivial,
    by simp [accessor_calls, List.filter]⟩

/-- Witness of C5: `ida_eula -s` against a library without the symbol. -/
theorem resolve_failure_releases_and_exits_one_witness :
    ¬ invalid_args (getopt_model ["ida_eula", "-s"] "l:qs") ∧
      library_events (run_trace no_symbol_env ["ida_eula", "-s"] ()) =
        [Event.dlopen "./libida.so" RTLD_LAZY (some 1), Event.dlclose 1] ∧
      run_exit no_symbol_env ["ida_eula", "-s"] () = 1 :=
  have h := resolve_failure_releases_and_exits_one no_symbol_env ["ida_eula", "-s"] () 1
    "undefined symbol: reg_int_op" (by decide) rfl rfl
  ⟨by decide, h.1, h.2.2.1⟩

/-- C6: in a valid run in which the library loads and the symbol resolves, whatever
the accessor `f` returns, the exit code is 0 and the handle is released exactly once,
as the last library event; in particular so in a run with `-s` whose verification
read returns a value other than 1, where the failure message is written. -/
theorem loaded_run_exits_zero (env : Env σ) (argv : List String) (store : σ)
    (handle : Nat) (f : reg_int_op_t σ)
    (hvalid : ¬ invalid_args (env.getopt argv "l:qs"))
    (hload : env.dlopen (library_path (env.getopt argv "l:qs")) RTLD_LAZY = Except.ok handle)
    (hres : env.dlsym handle "reg_int_op" = Except.ok f) :
    run_exit env argv store = 0 ∧
      (run_trace env argv store).count (Event.dlclose handle) = 1 ∧
      (library_events (run_trace env argv store)).getLast? = some (Event.dlclose handle) ∧
      (set_args (env.getopt argv "l:qs") →
        UINT64 (f "EULA 90" 0 0 none (f "EULA 90" 1 1 none store).2).1 ≠ 1 →
        Event.print Chan.stderr "verification failed! eula status is still not accepted.\n" []
          ∈ run_trace env argv store) := by
  rcases (valid_iff_query_or_set _).mp hvalid with hargs | hargs
  · simp only [run_trace, run_exit, main_query env argv store handle f hargs hload hres,
      load_events]
    refine ⟨trivial, by simp [List.count_cons], by simp [library_events, List.filter], ?_⟩
    intro hs
    exact absurd hargs.2.1 hs.2.2
  · simp only [run_trace, run_exit, main_set env argv store handle f hargs hload hres,
      load_events]
    by_cases hv : UINT64 (f "EULA 90" 0 0 none (f "EULA 90" 1 1 none store).2).1 = 1
    · simp only [hv, if_true]
      refine ⟨trivial, by simp [List.count_cons], by simp [library_events, List.filter], ?_⟩
      intro _ hne
      exact absurd rfl hne
    · simp only [hv, if_false]
      refine ⟨trivial, by simp [List.count_cons], by simp [library_events, List.filter], ?_⟩
      intro _ _
      simp

/-- Witness of C6: `ida_eula -s` against an accessor whose reads always return 0
(the verification fails). -/
theorem loaded_run_exits_zero_witness :
    ¬ invalid_args (getopt_model ["ida_eula", "-s"] "l:qs") ∧
      UINT64 ((const_reg_int_op 0 : reg_int_op_t Unit) "EULA 90" 0 0 none ()).1 ≠ 1 ∧
      run_exit (stub_env (const_reg_int_op 0)) ["ida_eula", "-s"] () = 0 ∧
      (run_trace (stub_env (const_reg_int_op 0)) ["ida_eula", "-s"] ()).count
        (Event.dlclose 1) = 1 :=
  have h := loaded_run_exits_zero (stub_env (const_reg_int_op 0)) ["ida_eula", "-s"] () 1
    (const_reg_int_op 0) (by decide) rfl rfl
  ⟨by decide, by decide, h.1, h.2.1⟩

/-- C8: against the key-value store, with a loader that opens every path and resolves
the symbol to the store's accessor: a `-q` run on a store in which `"EULA 90"` is unset
prints the "not accepted" line (and not the "accepted" line); a `-s` run from any
store state prints "verification successful" and exits 0; a `-q` run on the store
that `-s` run leaves prints the "accepted" line. -/
theorem kv_store_set_then_query (env : Env Store) (argvq argvs : List String) (st : Store)
    (wret : Nat)
    (hq : query_args (env.getopt argvq "l:qs"))
    (hs : set_args (env.getopt argvs "l:qs"))
    (hload : ∀ path, ∃ handle, env.dlopen path RTLD_LAZY = Except.ok handle)
    (hres : ∀ handle, env.dlsym handle "reg_int_op" = Except.ok (kv_reg_int_op wret)) :
    (st "EULA 90" = none →
        Event.print Chan.stdout "result: 0 (eula is not accepted).\n" [] ∈
          run_trace env argvq st ∧
        Event.print Chan.stdout "result: 1 (eula is accepted).\n" [] ∉
          run_trace env argvq st) ∧
      (Event.print Chan.stdout "verification successful: eula is now accepted.\n" [] ∈
          run_trace env argvs st ∧
        run_exit env argvs st = 0) ∧
      Event.print Chan.stdout "result: 1 (eula is accepted).\n" [] ∈
        run_trace env argvq (run_store env argvs st) := by
  obtain ⟨hq', hloadq⟩ := hload (library_path (env.getopt argvq "l:qs"))
  obtain ⟨hs', hloads⟩ := hload (library_path (env.getopt argvs "l:qs"))
  have hmq := fun store => main_query env argvq store hq' _ hq hloadq (hres hq')
  have hms := main_set env argvs st hs' _ hs hloads (hres hs')
  refine ⟨?_, ?_, ?_⟩
  · intro hunset
    simp only [run_trace, hmq, kv_read_unset wret st hunset, load_events]
    simp
  · simp only [run_trace, run_exit, hms, kv_read_after_write, load_events]
    simp
  · have hst : UINT64 (kv_reg_int_op wret "EULA 90" 0 0 none (run_store env argvs st)).1 = 1 := by
      simp only [run_store, hms, kv_read_keeps_store]
      exact kv_read_after_write wret st
    simp only [run_trace, hmq, hst, load_events]
    simp

/-- Witness of C8: `ida_eula -l ./stub.so -q` and `ida_eula -l ./stub.so -s` against
the empty key-value store. -/
theorem kv_store_set_then_query_witness :
    query_args (getopt_model ["ida_eula", "-l", "./stub.so", "-q"] "l:qs") ∧
      set_args (getopt_model ["ida_eula", "-l", "./stub.so", "-s"] "l:qs") ∧
      Event.print Chan.stdout "verification successful: eula is now accepted.\n" [] ∈
        run_trace (stub_env (kv_reg_int_op 1)) ["ida_eula", "-l", "./stub.so", "-s"]
          (fun _ => none) ∧
      Event.print Chan.stdout "result: 1 (eula is accepted).\n" [] ∈
        run_trace (stub_env (kv_reg_int_op 1)) ["ida_eula", "-l", "./stub.so", "-q"]
          (run_store (stub_env (kv_reg_int_op 1)) ["ida_eula", "-l", "./stub.so", "-s"]
            (fun _ => none)) :=
  have h := kv_store_set_then_query (stub_env (kv_reg_int_op 1))
    ["ida_eula", "-l", "./stub.so", "-q"] ["ida_eula", "-l", "./stub.so", "-s"]
    (fun _ => none) 1 (by decide) (by decide) (fun _ => ⟨1, rfl⟩) (fun _ => rfl)
  ⟨by decide, by decide, h.2.1.1, h.2.2⟩

/-- C7: on every run, the library events of the trace are either none (the library
is never opened), or one failed open, or one successful open, then accessor calls only,
then one release of the opened handle as the last library event. -/
theorem library_opened_and_released_once (env : Env σ) (argv : List String) (store : σ) :
    library_events (run_trace env argv store) = [] ∨
      (∃ path, library_events (run_trace env argv store) =
        [Event.dlopen path RTLD_LAZY none]) ∨
      (∃ path handle calls,
        library_events (run_trace env argv store) =
          Event.dlopen path RTLD_LAZY (some handle) :: (calls ++ [Event.dlclose handle]) ∧
        ∀ e ∈ calls, ∃ key mode value subkey, e = Event.reg_int_op key mode value subkey) := by
  by_cases hvalid : invalid_args (env.getopt argv "l:qs")
  · left
    obtain ⟨pre, hpre, hmain⟩ := main_of_invalid env argv store hvalid
    simp only [run_trace, hmain]
    rcases hpre with rfl | rfl | rfl <;> simp [library_events, usage_text, List.filter]
  · right
    cases hl : env.dlopen (library_path (env.getopt argv "l:qs")) RTLD_LAZY with
    | error msg =>
      left
      refine ⟨library_path (env.getopt argv "l:qs"), ?_⟩
      simp only [run_trace, main_load_failure env argv store msg hvalid hl]
      simp [library_events, List.filter]
    | ok handle =>
      right
      cases hr : env.dlsym handle "reg_int_op" with
      | error msg =>
        refine ⟨library_path (env.getopt argv "l:qs"), handle, [], ?_, by simp⟩
        simp only [run_trace, main_resolve_failure env argv store handle msg hvalid hl hr,
          load_events]
        simp [library_events, List.filter]
      | ok f =>
        rcases (valid_iff_query_or_set _).mp hvalid with hargs | hargs
        · refine ⟨library_path (env.getopt argv "l:qs"), handle,
            [Event.reg_int_op "EULA 90" 0 0 none], ?_, by simp⟩
          simp only [run_trace, main_query env argv store handle f hargs hl hr, load_events]
          simp [library_events, List.filter]
        · refine ⟨library_path (env.getopt argv "l:qs"), handle,
            [Event.reg_int_op "EULA 90" 1 1 none, Event.reg_int_op "EULA 90" 0 0 none], ?_,
            by simp⟩
          simp only [run_trace, main_set env argv store handle f hargs hl hr, load_events]
          split_ifs <;> simp [library_events, List.filter]

/-- C9: on every run, if `perform_eula_operation` was entered (its first `printf` is in
the trace) or the trace holds any library event, then the parsing loop ended with a
configuration in which exactly one of `query_mode` and `set_mode` is nonzero, and the
rest of the run is `perform_eula_operation` on that one configuration, which it only
reads; no run prints both the query-branch and the set-branch announcement; and when the
arguments are invalid the trace holds no library event, only writes to `stderr`. -/
theorem operation_runs_with_one_action (env : Env σ) (argv : List String) (store : σ) :
    (((∃ path, Event.print Chan.stdout "attempting to load library: %s\n" [path] ∈
            run_trace env argv store) ∨
          library_events (run_trace env argv store) ≠ []) →
        ∃ config : tool_config,
          main_loop (argv.headD "") (env.getopt argv "l:qs")
              { lib_path := "./libida.so", query_mode := 0, set_mode := 0 }
              { trace := [], store := store } =
            (({ trace := [], store := store } : World σ), some config) ∧
          ((config.query_mode ≠ 0 ∧ config.set_mode = 0) ∨
            (config.query_mode = 0 ∧ config.set_mode ≠ 0)) ∧
          main env argv store =
            exit_status (perform_eula_operation env config { trace := [], store := store })) ∧
      ¬ (Event.print Chan.stdout "querying eula status for key: '%s'...\n" ["EULA 90"] ∈
            run_trace env argv store ∧
          Event.print Chan.stdout "setting eula status for key: '%s' to accepted...\n"
            ["EULA 90"] ∈ run_trace env argv store) ∧
      (invalid_args (env.getopt argv "l:qs") →
        library_events (run_trace env argv store) = [] ∧
        ∀ e ∈ run_trace env argv store, ∃ fmt args, e = Event.print Chan.stderr fmt args) := by
  have hinv : invalid_args (env.getopt argv "l:qs") →
      library_events (run_trace env argv store) = [] ∧
      ∀ e ∈ run_trace env argv store, ∃ fmt args, e = Event.print Chan.stderr fmt args := by
    intro h
    obtain ⟨pre, hpre, hmain⟩ := main_of_invalid env argv store h
    simp only [run_trace, hmain]
    rcases hpre with rfl | rfl | rfl <;>
      exact ⟨by simp [library_events, usage_text, List.filter], by simp [usage_text]⟩
  refine ⟨?_, ?_, hinv⟩
  · intro hentered
    by_cases hvalid : invalid_args (env.getopt argv "l:qs")
    · exfalso
      obtain ⟨hlib, hall⟩ := hinv hvalid
      rcases hentered with ⟨path, hmem⟩ | hne
      · obtain ⟨fmt, args, he⟩ := hall _ hmem
        simp at he
      · exact hne hlib
    · exact ⟨parsed_config (env.getopt argv "l:qs"), main_loop_of_valid env argv store hvalid,
        parsed_config_one_action _ hvalid, main_of_valid env argv store hvalid⟩
  · by_cases hvalid : invalid_args (env.getopt argv "l:qs")
    · rintro ⟨hmem, -⟩
      obtain ⟨fmt, args, he⟩ := (hinv hvalid).2 _ hmem
      simp at he
    · cases hl : env.dlopen (library_path (env.getopt argv "l:qs")) RTLD_LAZY with
      | error msg =>
        simp only [run_trace, main_load_failure env argv store msg hvalid hl]
        simp
      | ok handle =>
        cases hr : env.dlsym handle "reg_int_op" with
        | error msg =>
          simp only [run_trace, main_resolve_failure env argv store handle msg hvalid hl hr,
            load_events]
          simp
        | ok f =>
          rcases (valid_iff_query_or_set _).mp hvalid with hargs | hargs
          · simp only [run_trace, main_query env argv store handle f hargs hl hr, load_events]
            simp
          · simp only [run_trace, main_set env argv store handle f hargs hl hr, load_events]
            split_ifs <;> simp

/-- C10: for valid arguments the loader is called exactly once, with the path
`library_path`: `"./libida.so"` when no `-l` was given, and otherwise the argument of
the last `-l`; the path depends on the `-l` options alone. -/
theorem loader_gets_selected_path (env : Env σ) (argv : List String) (store : σ)
    (hvalid : ¬ invalid_args (env.getopt argv "l:qs")) :
    (∃ result, loader_calls (run_trace env argv store) =
        [Event.dlopen (library_path (env.getopt argv "l:qs")) RTLD_LAZY result]) ∧
      (¬ option_given 'l' (env.getopt argv "l:qs") →
        library_path (env.getopt argv "l:qs") = "./libida.so") ∧
      (∀ r, ((env.getopt argv "l:qs").filter fun r => r.opt = 'l').getLast? = some r →
        library_path (env.getopt argv "l:qs") = r.optarg) ∧
      (∀ opts : List GetoptRet,
        (opts.filter fun r => r.opt = 'l') =
          ((env.getopt argv "l:qs").filter fun r => r.opt = 'l') →
        library_path opts = library_path (env.getopt argv "l:qs")) := by
  refine ⟨?_, ?_, ?_, ?_⟩
  · cases hl : env.dlopen (library_path (env.getopt argv "l:qs")) RTLD_LAZY with
    | error msg =>
      refine ⟨none, ?_⟩
      simp only [run_trace, main_load_failure env argv store msg hvalid hl]
      simp [loader_calls, List.filter]
    | ok handle =>
      refine ⟨some handle, ?_⟩
      cases hr : env.dlsym handle "reg_int_op" with
      | error msg =>
        simp only [run_trace, main_resolve_failure env argv store handle msg hvalid hl hr,
          load_events]
        simp [loader_calls, List.filter]
      | ok f =>
        rcases (valid_iff_query_or_set _).mp hvalid with hargs | hargs
        · simp only [run_trace, main_query env argv store handle f hargs hl hr, load_events]
          simp [loader_calls, List.filter]
        · simp only [run_trace, main_set env argv store handle f hargs hl hr, load_events]
          split_ifs <;> simp [loader_calls, List.filter]
  · intro hno
    have hnil : ((env.getopt argv "l:qs").filter fun r => r.opt = 'l') = [] := by
      rw [List.filter_eq_nil_iff]
      intro r hr hopt
      exact hno ⟨r, hr, by simpa using hopt⟩
    simp [library_path, last_l_argument, hnil]
  · intro r hlast
    simp [library_path, last_l_argument, hlast]
  · intro opts hsame
    simp [library_path, last_l_argument, hsame]

/-- Witness of C10: `ida_eula -l a.so -q -l b.so` hands `b.so` to the loader. -/
theorem loader_gets_selected_path_witness :
    ¬ invalid_args (getopt_model ["ida_eula", "-l", "a.so", "-q", "-l", "b.so"] "l:qs") ∧
      ∃ result,
        loader_calls (run_trace (stub_env (kv_reg_int_op 1))
          ["ida_eula", "-l", "a.so", "-q", "-l", "b.so"] (fun _ => none)) =
        [Event.dlopen "b.so" RTLD_LAZY result] :=
  ⟨by decide,
    (loader_gets_selected_path (stub_env (kv_reg_int_op 1))
      ["ida_eula", "-l", "a.so", "-q", "-l", "b.so"] (fun _ => none) (by decide)).1⟩

end IdaEula
